import Mathlib

/-!
Shallow embedding of the encoder-to-odom library
(`src/src/odometry.cpp`, headers `src/include/encoder_to_odom/odometry.h`
and `src/include/odometry.h`).

C `float` values are idealized as real numbers.  The single operation in
`odometry.cpp` that can turn finite, in-range inputs into an IEEE NaN is
`asinf` applied to an argument outside `[-1, 1]`; the two fields that can be
contaminated by that NaN (`currentPosition.theta`, and `currentPosition.x`,
which receives `cosf(theta)`/`sinf(theta)` terms) are therefore modelled as
`Option ℝ`, with `none` standing for NaN.  All other quantities in the
pipeline are built from the caller's finite readings by `+ - * /` and never
become NaN, so they stay plain `ℝ`.

The velocity / timestamp interface (`getVelocity`, `updateTimestamp`,
`getDeltaTime`) is declared in `src/include/odometry.h` but its
implementation is not part of `src/`; those pieces are modelled from the
spec and are marked as such below.
-/

namespace EncoderToOdom

noncomputable section

/-- The PI macro of the header: the float literal 3.14159265 (slightly below pi). -/
def PI : ℝ := 3.14159265

/-- The THREE_SIXTY constant of the header. -/
def THREE_SIXTY : ℝ := 360

/-- Motor enum from the header. -/
inductive Motor
  | LEFT
  | RIGHT
deriving DecidableEq

/-- Two-slot map standing for `std::map<Motor, float>`; `operator[]`
default-inserts `0.0`, so both slots start at `0`. -/
structure MotorMap where
  left : ℝ := 0
  right : ℝ := 0

/-- Read a motor's slot (`map[motor]` on the right-hand side). -/
def MotorMap.get (m : MotorMap) : Motor → ℝ
  | .LEFT => m.left
  | .RIGHT => m.right

/-- Write a motor's slot (`map[motor] = v`). -/
def MotorMap.set (m : MotorMap) : Motor → ℝ → MotorMap
  | .LEFT, v => { m with left := v }
  | .RIGHT, v => { m with right := v }

/-- Position struct; `x` and `theta` are `Option ℝ` because they can become
NaN through `asinf` (see the file comment), `y` is never written by any
operation and stays a plain real. -/
structure Position where
  x : Option ℝ
  y : ℝ
  theta : Option ℝ

/-- Distance struct from the header. -/
structure Distance where
  frameDistance : ℝ
  totalDistance : ℝ

/-- Velocity struct from `src/include/odometry.h`. -/
structure Velocity where
  linearX : ℝ
  angularZ : ℝ

/-- State of an `OdometryProcessor` object: constructor parameters plus the
mutable fields, with the in-class initializers of the header as defaults.
`stablizationAmount` is an `int` in the source that starts at 3 and is only
ever decremented while positive, so `Nat` models its reachable values.
The `timestamp` / `deltaTime` / `lastDeltaTheta` fields back the
spec-modelled velocity interface (implementation absent from `src/`). -/
structure OdometryProcessor where
  wheelCircumference : ℝ
  wheelBase : ℝ
  gearRatio : ℝ
  rolloverThreshold : ℝ
  rightIncrease : Bool
  leftIncrease : Bool
  currentPosition : Position := ⟨some 0, 0, some 0⟩
  distance : Distance := ⟨0, 0⟩
  currentReadings : MotorMap := {}
  lastReadings : MotorMap := {}
  totalDegreesTraveled : MotorMap := {}
  metersTraveledInFrame : MotorMap := {}
  totalMetersTraveled : MotorMap := {}
  stablizationAmount : Nat := 3
  timestamp : Int := 0
  deltaTime : Int := 0
  lastDeltaTheta : ℝ := 0

/-- The constructor: stores the six parameters, everything else keeps its
in-class initializer. -/
def mkProcessor (wheelCircumference wheelBase gearRatio rolloverThreshold : ℝ)
    (rightIncrease leftIncrease : Bool) : OdometryProcessor :=
  { wheelCircumference := wheelCircumference
    wheelBase := wheelBase
    gearRatio := gearRatio
    rolloverThreshold := rolloverThreshold
    rightIncrease := rightIncrease
    leftIncrease := leftIncrease }

namespace OdometryProcessor

/-- `updateCurrentValue(value, motor)`: shift current reading into last,
store the new value as current. -/
def updateCurrentValue (s : OdometryProcessor) (value : ℝ) (motor : Motor) :
    OdometryProcessor :=
  let s1 := { s with lastReadings := s.lastReadings.set motor (s.currentReadings.get motor) }
  { s1 with currentReadings := s1.currentReadings.set motor value }

/-- `calculateDeltaDegrees(current, last)`: raw difference with single-wrap
rollover correction against `rolloverThreshold`. -/
def calculateDeltaDegrees (s : OdometryProcessor)
    (currentDegreeReading lastDegreeReading : ℝ) : ℝ :=
  let currentPreviousDelta := currentDegreeReading - lastDegreeReading
  if currentPreviousDelta > s.rolloverThreshold then
    0 - (360 - currentPreviousDelta)
  else if currentPreviousDelta < -s.rolloverThreshold then
    360 + currentPreviousDelta
  else
    currentPreviousDelta

/-- `calculateDegreesTraveledInFrame(motor)`: accumulate the frame's delta
into `totalDegreesTraveled[motor]`. -/
def calculateDegreesTraveledInFrame (s : OdometryProcessor) (motor : Motor) :
    OdometryProcessor :=
  let currentReading := s.currentReadings.get motor
  let lastReading := s.lastReadings.get motor
  let deltaDegrees := s.calculateDeltaDegrees currentReading lastReading
  { s with totalDegreesTraveled :=
      s.totalDegreesTraveled.set motor (s.totalDegreesTraveled.get motor + deltaDegrees) }

/-- `getTotalDegreesTraveled(motor)`. -/
def getTotalDegreesTraveled (s : OdometryProcessor) (motor : Motor) : ℝ :=
  s.totalDegreesTraveled.get motor

/-- `calculateMetersMotorTraveledInFrame(motor)`: note that the source reads
back the cumulative `totalDegreesTraveled` (not the single frame's delta),
applies the direction flags, converts degrees to meters, and stores the
result in `metersTraveledInFrame` and (accumulated) `totalMetersTraveled`. -/
def calculateMetersMotorTraveledInFrame (s : OdometryProcessor) (motor : Motor) :
    OdometryProcessor :=
  let s1 := s.calculateDegreesTraveledInFrame motor
  let totalDegrees := s1.getTotalDegreesTraveled motor
  let totalDegrees1 :=
    if s1.leftIncrease = false ∧ motor = Motor.LEFT then -totalDegrees else totalDegrees
  let totalDegrees2 :=
    if s1.rightIncrease = false ∧ motor = Motor.RIGHT then -totalDegrees1 else totalDegrees1
  let encoderRotations := totalDegrees2 / THREE_SIXTY
  let rotations := encoderRotations / s1.gearRatio
  let metersTraveled := rotations * s1.wheelCircumference
  let s2 := { s1 with metersTraveledInFrame := s1.metersTraveledInFrame.set motor metersTraveled }
  { s2 with totalMetersTraveled :=
      s2.totalMetersTraveled.set motor (s2.totalMetersTraveled.get motor + metersTraveled) }

/-- `calculateFrameDistance()`: average of the two per-frame wheel meters,
accumulated into `totalDistance`. -/
def calculateFrameDistance (s : OdometryProcessor) : OdometryProcessor :=
  let leftDistance := s.metersTraveledInFrame.get Motor.LEFT
  let rightDistance := s.metersTraveledInFrame.get Motor.RIGHT
  let fd := (rightDistance + leftDistance) / 2
  { s with distance := { frameDistance := fd, totalDistance := s.distance.totalDistance + fd } }

end OdometryProcessor

/-- `asinf`: real arcsine inside the domain `[-1, 1]`, NaN (`none`) outside. -/
def asinF (x : ℝ) : Option ℝ :=
  if x < -1 ∨ 1 < x then none else some (Real.arcsin x)

/-- The single-step wrap applied to theta in `calculateTheta`: subtract or
add `2 * PI` once when the accumulated value leaves `[-PI, PI]`. -/
def normalize1 (t : ℝ) : ℝ :=
  if t > PI then t - 2 * PI else if t < -PI then t + 2 * PI else t

namespace OdometryProcessor

/-- `calculateTheta()`: add `asinf((right - left) / wheelBase)` to theta and
wrap once; a NaN operand leaves theta NaN (`none`). -/
def calculateTheta (s : OdometryProcessor) : OdometryProcessor :=
  let rightDistance := s.metersTraveledInFrame.get Motor.RIGHT
  let leftDistance := s.metersTraveledInFrame.get Motor.LEFT
  let difference := rightDistance - leftDistance
  let angle := asinF (difference / s.wheelBase)
  let theta : Option ℝ :=
    match s.currentPosition.theta, angle with
    | some t, some a => some (normalize1 (t + a))
    | _, _ => none
  { s with currentPosition := { s.currentPosition with theta := theta } }

/-- `calculateDistanceMovedX()`: `x += cosf(theta) * frameDistance`. -/
def calculateDistanceMovedX (s : OdometryProcessor) : OdometryProcessor :=
  let x : Option ℝ :=
    match s.currentPosition.x, s.currentPosition.theta with
    | some x0, some t => some (x0 + Real.cos t * s.distance.frameDistance)
    | _, _ => none
  { s with currentPosition := { s.currentPosition with x := x } }

/-- `calculateDistanceMovedY()`: computes `sinf(theta) * frameDistance` but
adds it to `x` (the source writes `this->currentPosition.x`, not `.y`). -/
def calculateDistanceMovedY (s : OdometryProcessor) : OdometryProcessor :=
  let x : Option ℝ :=
    match s.currentPosition.x, s.currentPosition.theta with
    | some x0, some t => some (x0 + Real.sin t * s.distance.frameDistance)
    | _, _ => none
  { s with currentPosition := { s.currentPosition with x := x } }

/-- `getPosition()`. -/
def getPosition (s : OdometryProcessor) : Position := s.currentPosition

/-- `getDistance()` accessor of the distance struct. -/
def getDistance (s : OdometryProcessor) : Distance := s.distance

/-- `getTotalMetersTraveled(motor)`. -/
def getTotalMetersTraveled (s : OdometryProcessor) (motor : Motor) : ℝ :=
  s.totalMetersTraveled.get motor

/-- `settled()`: while the stabilization countdown is positive, decrement it
and report not-settled; afterwards report settled. -/
def settled (s : OdometryProcessor) : Bool × OdometryProcessor :=
  if 0 < s.stablizationAmount then
    (false, { s with stablizationAmount := s.stablizationAmount - 1 })
  else
    (true, s)

/-- Modelled from the spec: the spec derives `angularZ` from the frame's
heading change `deltaTheta = (rightMeters - leftMeters) / wheelBase`
(spec 4.3 step 2 and 4.4); the velocity implementation is absent from
`src/`, so the settled pipeline records that quantity for `getVelocity`. -/
def recordDeltaTheta (s : OdometryProcessor) : OdometryProcessor :=
  { s with lastDeltaTheta :=
      (s.metersTraveledInFrame.get Motor.RIGHT - s.metersTraveledInFrame.get Motor.LEFT) /
        s.wheelBase }

/-- The settled branch of `processData()`: both motors' meters, then frame
distance, then theta, then the two position updates, in source order
(`recordDeltaTheta` is the spec-modelled velocity bookkeeping). -/
def pipelineStep (s : OdometryProcessor) : OdometryProcessor :=
  (((((s.calculateMetersMotorTraveledInFrame Motor.LEFT).calculateMetersMotorTraveledInFrame
      Motor.RIGHT).calculateFrameDistance).calculateTheta).recordDeltaTheta).calculateDistanceMovedX
    |>.calculateDistanceMovedY

/-- `processData()`: run the stabilization gate, then the full pipeline only
when settled. -/
def processData (s : OdometryProcessor) : OdometryProcessor :=
  match s.settled with
  | (true, s1) => s1.pipelineStep
  | (false, s1) => s1

/-- Modelled from the spec: `updateTimestamp` stores the 16-bit wrapping
timestamp and `deltaTime = (new - old) mod 2 ^ 16` (spec 3 TimeState and
design note on 16-bit wrapping subtraction); implementation absent from
`src/`, only the declaration in `src/include/odometry.h`. -/
def updateTimestamp (s : OdometryProcessor) (newTimestamp : Int) : OdometryProcessor :=
  { s with deltaTime := (newTimestamp - s.timestamp) % 65536
           timestamp := newTimestamp % 65536 }

/-- Modelled from the spec: `getVelocity()` (spec 4.4) divides the frame
distance and the frame heading change by the elapsed seconds, and forces
both outputs to zero when `deltaTime <= 0`; implementation absent from
`src/`, only the declaration in `src/include/odometry.h`. -/
def getVelocity (s : OdometryProcessor) : Velocity :=
  if s.deltaTime ≤ 0 then ⟨0, 0⟩
  else
    ⟨s.distance.frameDistance / ((s.deltaTime : ℝ) / 1000),
      s.lastDeltaTheta / ((s.deltaTime : ℝ) / 1000)⟩

end OdometryProcessor

/-- One external interaction with the processor. -/
inductive Op
  | update (motor : Motor) (value : ℝ)
  | stamp (t : Int)
  | process

/-- Apply one interaction. -/
def applyOp (s : OdometryProcessor) : Op → OdometryProcessor
  | .update motor value => s.updateCurrentValue value motor
  | .stamp t => s.updateTimestamp t
  | .process => s.processData

/-- Run a sequence of interactions left to right. -/
def runOps (s : OdometryProcessor) : List Op → OdometryProcessor
  | [] => s
  | op :: rest => runOps (applyOp s op) rest

/-- Number of `processData` calls in a sequence of interactions. -/
def countProcess : List Op → Nat
  | [] => 0
  | .update _ _ :: rest => countProcess rest
  | .stamp _ :: rest => countProcess rest
  | .process :: rest => countProcess rest + 1

/-- The state after the two per-motor meters stages of a settled frame
(`calculateMetersMotorTraveledInFrame` for LEFT then RIGHT, the order used
by `processData`). -/
def metersFrame (s : OdometryProcessor) : OdometryProcessor :=
  (s.calculateMetersMotorTraveledInFrame Motor.LEFT).calculateMetersMotorTraveledInFrame
    Motor.RIGHT

/-- The argument handed to `asinf` by the `calculateTheta` stage of the
frame that `processData` would run from state `s`: the difference of the
per-frame meters computed by this same frame, over the wheel base. -/
def frameThetaArg (s : OdometryProcessor) : ℝ :=
  ((metersFrame s).metersTraveledInFrame.get Motor.RIGHT -
    (metersFrame s).metersTraveledInFrame.get Motor.LEFT) / s.wheelBase

/-- Theta is a genuine real number (not NaN) lying in `[-PI, PI]`, the
interval the single-step wrap of `calculateTheta` actually maintains. -/
def ThetaInRange (s : OdometryProcessor) : Prop :=
  ∃ t : ℝ, s.currentPosition.theta = some t ∧ -PI ≤ t ∧ t ≤ PI

/-- Geometry used by the concrete runs below: wheel circumference 360 m,
wheel base 1 m, gear ratio 1 and rollover threshold 100 deg, with both
encoders increasing forward, so one degree of encoder travel is exactly one
meter of wheel travel. -/
def demoProcessor : OdometryProcessor := mkProcessor 360 1 1 100 true true

/-- The three construction-time stabilization frames. -/
def warmups : List Op := [Op.process, Op.process, Op.process]

/-- Warm up, then drive the right encoder from 0 to 1 degree and process:
one settled frame whose wheel distances are 0 m (left) and 1 m (right). -/
def runA : List Op := warmups ++ [Op.update Motor.RIGHT 1, Op.process]

/-- Continue `runA` with a frame where the left encoder catches up to 1
degree and the right encoder is re-read unchanged (so its frame delta is
zero). -/
def runBpre : List Op := runA ++ [Op.update Motor.LEFT 1, Op.update Motor.RIGHT 1]

/-- `runBpre` followed by the `processData` call of its settled frame. -/
def runB : List Op := runBpre ++ [Op.process]

/-- Warm up, then move the right encoder by 2 degrees: the settled frame's
wheel-distance difference (2 m) exceeds the wheel base (1 m). -/
def badPrefix : List Op := warmups ++ [Op.update Motor.RIGHT 2]

/-- `badPrefix` followed by the `processData` call that runs `asinf` on an
out-of-domain argument. -/
def runC : List Op := badPrefix ++ [Op.process]

/-- The processor right after its three stabilization frames: settled,
everything else still at its initial value. -/
def sWarm : OdometryProcessor := { demoProcessor with stablizationAmount := 0 }

/-- The settled processor with the right encoder moved from 0 to 1 degree:
the state `processData` sees in the frame of `runA`. -/
def sA : OdometryProcessor := sWarm.updateCurrentValue 1 Motor.RIGHT

/-- The state after `runA`, written out: the frame computes wheel meters
0 (left) and 1 (right), frame distance 1/2, and heading
`asinf(1) = pi / 2`; the sine term of `calculateDistanceMovedY` lands in
`x`, which ends at `0 + cos(pi/2)/2 + sin(pi/2)/2 = 1/2`. -/
def sAfull : OdometryProcessor :=
  { demoProcessor with
    stablizationAmount := 0
    currentReadings := ⟨0, 1⟩
    lastReadings := ⟨0, 0⟩
    totalDegreesTraveled := ⟨0, 1⟩
    metersTraveledInFrame := ⟨0, 1⟩
    totalMetersTraveled := ⟨0, 1⟩
    distance := ⟨1/2, 1/2⟩
    currentPosition := ⟨some (1/2), 0, some (Real.pi / 2)⟩
    lastDeltaTheta := 1 }

/-- The state `processData` sees in the final frame of `runB`: left encoder
moved to 1 degree (frame delta 1), right encoder re-read at 1 degree (frame
delta 0). -/
def sB : OdometryProcessor :=
  (sAfull.updateCurrentValue 1 Motor.LEFT).updateCurrentValue 1 Motor.RIGHT

/-- The state after `runB`, written out.  The right motor's frame delta is
0, yet `calculateMetersMotorTraveledInFrame` converts the cumulative total
(1 degree), so `metersTraveledInFrame` records 1 m for it and
`totalMetersTraveled` reaches 2 m; the heading change is `asinf(0) = 0`
and the whole frame distance (1 m) is added to `x` through the sine term,
leaving `y` at zero. -/
def sBfull : OdometryProcessor :=
  { demoProcessor with
    stablizationAmount := 0
    currentReadings := ⟨1, 1⟩
    lastReadings := ⟨0, 1⟩
    totalDegreesTraveled := ⟨1, 1⟩
    metersTraveledInFrame := ⟨1, 1⟩
    totalMetersTraveled := ⟨1, 2⟩
    distance := ⟨1, 3/2⟩
    currentPosition := ⟨some (3/2), 0, some (Real.pi / 2)⟩
    lastDeltaTheta := 0 }

/-- The settled processor with the right encoder moved from 0 to 2 degrees:
the state `processData` sees in the final frame of `runC`.  Its frame
computes wheel meters 0 (left) and 2 (right), whose difference exceeds the
1 m wheel base. -/
def sC : OdometryProcessor := sWarm.updateCurrentValue 2 Motor.RIGHT

/-- The state after `runC`, written out: `asinf(2)` is NaN, so theta and
(through `cosf`/`sinf`) `x` are NaN, modelled as `none`. -/
def sCfull : OdometryProcessor :=
  { demoProcessor with
    stablizationAmount := 0
    currentReadings := ⟨0, 2⟩
    lastReadings := ⟨0, 0⟩
    totalDegreesTraveled := ⟨0, 2⟩
    metersTraveledInFrame := ⟨0, 2⟩
    totalMetersTraveled := ⟨0, 2⟩
    distance := ⟨1, 1⟩
    currentPosition := ⟨none, 0, none⟩
    lastDeltaTheta := 2 }

/-!  Helper lemmas: which fields each stage of the pipeline leaves alone,
and how the stabilization gate unfolds.  All claim theorems are assembled
from these. -/

namespace OdometryProcessor

theorem updateCurrentValue_position (s : OdometryProcessor) (v : ℝ) (m : Motor) :
    (s.updateCurrentValue v m).currentPosition = s.currentPosition := rfl

theorem updateCurrentValue_distance (s : OdometryProcessor) (v : ℝ) (m : Motor) :
    (s.updateCurrentValue v m).distance = s.distance := rfl

theorem updateCurrentValue_lastDeltaTheta (s : OdometryProcessor) (v : ℝ) (m : Motor) :
    (s.updateCurrentValue v m).lastDeltaTheta = s.lastDeltaTheta := rfl

theorem updateCurrentValue_stab (s : OdometryProcessor) (v : ℝ) (m : Motor) :
    (s.updateCurrentValue v m).stablizationAmount = s.stablizationAmount := rfl

theorem updateTimestamp_position (s : OdometryProcessor) (t : Int) :
    (s.updateTimestamp t).currentPosition = s.currentPosition := rfl

theorem updateTimestamp_distance (s : OdometryProcessor) (t : Int) :
    (s.updateTimestamp t).distance = s.distance := rfl

theorem updateTimestamp_lastDeltaTheta (s : OdometryProcessor) (t : Int) :
    (s.updateTimestamp t).lastDeltaTheta = s.lastDeltaTheta := rfl

theorem updateTimestamp_stab (s : OdometryProcessor) (t : Int) :
    (s.updateTimestamp t).stablizationAmount = s.stablizationAmount := rfl

theorem setStab_stab (s : OdometryProcessor) (n : Nat) :
    ({ s with stablizationAmount := n } : OdometryProcessor).stablizationAmount = n := rfl

theorem setStab_position (s : OdometryProcessor) (n : Nat) :
    ({ s with stablizationAmount := n } : OdometryProcessor).currentPosition =
      s.currentPosition := rfl

theorem setStab_distance (s : OdometryProcessor) (n : Nat) :
    ({ s with stablizationAmount := n } : OdometryProcessor).distance = s.distance := rfl

theorem setStab_lastDeltaTheta (s : OdometryProcessor) (n : Nat) :
    ({ s with stablizationAmount := n } : OdometryProcessor).lastDeltaTheta =
      s.lastDeltaTheta := rfl

theorem metersStage_distance (s : OdometryProcessor) (m : Motor) :
    (s.calculateMetersMotorTraveledInFrame m).distance = s.distance := rfl

theorem metersStage_position (s : OdometryProcessor) (m : Motor) :
    (s.calculateMetersMotorTraveledInFrame m).currentPosition = s.currentPosition := rfl

theorem metersStage_stab (s : OdometryProcessor) (m : Motor) :
    (s.calculateMetersMotorTraveledInFrame m).stablizationAmount = s.stablizationAmount := rfl

theorem metersStage_params (s : OdometryProcessor) (m : Motor) :
    (s.calculateMetersMotorTraveledInFrame m).wheelBase = s.wheelBase ∧
      (s.calculateMetersMotorTraveledInFrame m).wheelCircumference = s.wheelCircumference ∧
      (s.calculateMetersMotorTraveledInFrame m).gearRatio = s.gearRatio ∧
      (s.calculateMetersMotorTraveledInFrame m).rolloverThreshold = s.rolloverThreshold :=
  ⟨rfl, rfl, rfl, rfl⟩

theorem calculateFrameDistance_meters (s : OdometryProcessor) :
    s.calculateFrameDistance.metersTraveledInFrame = s.metersTraveledInFrame := rfl

theorem calculateFrameDistance_position (s : OdometryProcessor) :
    s.calculateFrameDistance.currentPosition = s.currentPosition := rfl

theorem calculateFrameDistance_stab (s : OdometryProcessor) :
    s.calculateFrameDistance.stablizationAmount = s.stablizationAmount := rfl

theorem calculateFrameDistance_frameDistance (s : OdometryProcessor) :
    s.calculateFrameDistance.distance.frameDistance =
      (s.metersTraveledInFrame.get Motor.RIGHT + s.metersTraveledInFrame.get Motor.LEFT) / 2 :=
  rfl

theorem calculateFrameDistance_totalDistance (s : OdometryProcessor) :
    s.calculateFrameDistance.distance.totalDistance =
      s.distance.totalDistance +
        (s.metersTraveledInFrame.get Motor.RIGHT + s.metersTraveledInFrame.get Motor.LEFT) / 2 :=
  rfl

theorem calculateTheta_distance (s : OdometryProcessor) :
    s.calculateTheta.distance = s.distance := rfl

theorem calculateTheta_meters (s : OdometryProcessor) :
    s.calculateTheta.metersTraveledInFrame = s.metersTraveledInFrame := rfl

theorem calculateTheta_x (s : OdometryProcessor) :
    s.calculateTheta.currentPosition.x = s.currentPosition.x := rfl

theorem calculateTheta_y (s : OdometryProcessor) :
    s.calculateTheta.currentPosition.y = s.currentPosition.y := rfl

theorem calculateTheta_stab (s : OdometryProcessor) :
    s.calculateTheta.stablizationAmount = s.stablizationAmount := rfl

theorem recordDeltaTheta_position (s : OdometryProcessor) :
    s.recordDeltaTheta.currentPosition = s.currentPosition := rfl

theorem recordDeltaTheta_distance (s : OdometryProcessor) :
    s.recordDeltaTheta.distance = s.distance := rfl

theorem recordDeltaTheta_meters (s : OdometryProcessor) :
    s.recordDeltaTheta.metersTraveledInFrame = s.metersTraveledInFrame := rfl

theorem recordDeltaTheta_stab (s : OdometryProcessor) :
    s.recordDeltaTheta.stablizationAmount = s.stablizationAmount := rfl

theorem moveX_theta (s : OdometryProcessor) :
    s.calculateDistanceMovedX.currentPosition.theta = s.currentPosition.theta := rfl

theorem moveX_y (s : OdometryProcessor) :
    s.calculateDistanceMovedX.currentPosition.y = s.currentPosition.y := rfl

theorem moveX_distance (s : OdometryProcessor) :
    s.calculateDistanceMovedX.distance = s.distance := rfl

theorem moveX_meters (s : OdometryProcessor) :
    s.calculateDistanceMovedX.metersTraveledInFrame = s.metersTraveledInFrame := rfl

theorem moveX_stab (s : OdometryProcessor) :
    s.calculateDistanceMovedX.stablizationAmount = s.stablizationAmount := rfl

theorem moveY_theta (s : OdometryProcessor) :
    s.calculateDistanceMovedY.currentPosition.theta = s.currentPosition.theta := rfl

theorem moveY_y (s : OdometryProcessor) :
    s.calculateDistanceMovedY.currentPosition.y = s.currentPosition.y := rfl

theorem moveY_distance (s : OdometryProcessor) :
    s.calculateDistanceMovedY.distance = s.distance := rfl

theorem moveY_meters (s : OdometryProcessor) :
    s.calculateDistanceMovedY.metersTraveledInFrame = s.metersTraveledInFrame := rfl

theorem moveY_stab (s : OdometryProcessor) :
    s.calculateDistanceMovedY.stablizationAmount = s.stablizationAmount := rfl

theorem pipelineStep_stab (s : OdometryProcessor) :
    s.pipelineStep.stablizationAmount = s.stablizationAmount := by
  unfold pipelineStep
  rw [moveY_stab, moveX_stab, recordDeltaTheta_stab, calculateTheta_stab,
    calculateFrameDistance_stab, metersStage_stab, metersStage_stab]

theorem pipelineStep_distance (s : OdometryProcessor) :
    s.pipelineStep.distance =
      (((s.calculateMetersMotorTraveledInFrame Motor.LEFT).calculateMetersMotorTraveledInFrame
        Motor.RIGHT).calculateFrameDistance).distance := by
  unfold pipelineStep
  rw [moveY_distance, moveX_distance, recordDeltaTheta_distance, calculateTheta_distance]

theorem pipelineStep_meters (s : OdometryProcessor) :
    s.pipelineStep.metersTraveledInFrame =
      ((s.calculateMetersMotorTraveledInFrame Motor.LEFT).calculateMetersMotorTraveledInFrame
        Motor.RIGHT).metersTraveledInFrame := by
  unfold pipelineStep
  rw [moveY_meters, moveX_meters, recordDeltaTheta_meters, calculateTheta_meters,
    calculateFrameDistance_meters]

theorem pipelineStep_y (s : OdometryProcessor) :
    s.pipelineStep.currentPosition.y = s.currentPosition.y := by
  unfold pipelineStep
  rw [moveY_y, moveX_y, recordDeltaTheta_position, calculateTheta_y,
    calculateFrameDistance_position, metersStage_position, metersStage_position]

theorem pipelineStep_theta (s : OdometryProcessor) :
    s.pipelineStep.currentPosition.theta =
      ((((s.calculateMetersMotorTraveledInFrame Motor.LEFT).calculateMetersMotorTraveledInFrame
        Motor.RIGHT).calculateFrameDistance).calculateTheta).currentPosition.theta := by
  unfold pipelineStep
  rw [moveY_theta, moveX_theta, recordDeltaTheta_position]

/-- With the countdown at zero, `processData` is exactly the settled
pipeline. -/
theorem processData_settled_eq (s : OdometryProcessor) (h : s.stablizationAmount = 0) :
    s.processData = s.pipelineStep := by
  unfold processData settled
  rw [h]
  simp

/-- With a positive countdown, `processData` only decrements the countdown. -/
theorem processData_warm_eq (s : OdometryProcessor) (h : 0 < s.stablizationAmount) :
    s.processData = { s with stablizationAmount := s.stablizationAmount - 1 } := by
  unfold processData settled
  rw [if_pos h]

end OdometryProcessor

/-- The stabilization countdown after a run drops by the number of
`processData` calls, truncated at zero. -/
theorem runOps_stab : ∀ (ops : List Op) (s : OdometryProcessor),
    (runOps s ops).stablizationAmount = s.stablizationAmount - countProcess ops
  | [], _ => rfl
  | Op.update m v :: rest, s => by
      simp only [runOps, countProcess, applyOp]
      rw [runOps_stab rest, OdometryProcessor.updateCurrentValue_stab]
  | Op.stamp t :: rest, s => by
      simp only [runOps, countProcess, applyOp]
      rw [runOps_stab rest, OdometryProcessor.updateTimestamp_stab]
  | Op.process :: rest, s => by
      simp only [runOps, countProcess, applyOp]
      rw [runOps_stab rest]
      by_cases h : 0 < s.stablizationAmount
      · rw [OdometryProcessor.processData_warm_eq s h, OdometryProcessor.setStab_stab]
        omega
      · rw [OdometryProcessor.processData_settled_eq s (by omega)]
        rw [OdometryProcessor.pipelineStep_stab]
        omega

/-- While at most `stablizationAmount` many `processData` calls have been
issued, the pose, distance and recorded heading change are untouched. -/
theorem runOps_frozen : ∀ (ops : List Op) (s : OdometryProcessor),
    countProcess ops ≤ s.stablizationAmount →
    (runOps s ops).currentPosition = s.currentPosition ∧
      (runOps s ops).distance = s.distance ∧
      (runOps s ops).lastDeltaTheta = s.lastDeltaTheta
  | [], _, _ => ⟨rfl, rfl, rfl⟩
  | Op.update m v :: rest, s, h => by
      simp only [countProcess] at h
      have ih := runOps_frozen rest (s.updateCurrentValue v m)
        (by rw [OdometryProcessor.updateCurrentValue_stab]; exact h)
      simp only [runOps, applyOp]
      rw [OdometryProcessor.updateCurrentValue_position,
        OdometryProcessor.updateCurrentValue_distance,
        OdometryProcessor.updateCurrentValue_lastDeltaTheta] at ih
      exact ih
  | Op.stamp t :: rest, s, h => by
      simp only [countProcess] at h
      have ih := runOps_frozen rest (s.updateTimestamp t)
        (by rw [OdometryProcessor.updateTimestamp_stab]; exact h)
      simp only [runOps, applyOp]
      rw [OdometryProcessor.updateTimestamp_position,
        OdometryProcessor.updateTimestamp_distance,
        OdometryProcessor.updateTimestamp_lastDeltaTheta] at ih
      exact ih
  | Op.process :: rest, s, h => by
      simp only [countProcess] at h
      have hpos : 0 < s.stablizationAmount := by omega
      simp only [runOps, applyOp]
      rw [OdometryProcessor.processData_warm_eq s hpos]
      have ih := runOps_frozen rest
        { s with stablizationAmount := s.stablizationAmount - 1 }
        (by rw [OdometryProcessor.setStab_stab]; omega)
      rw [OdometryProcessor.setStab_position, OdometryProcessor.setStab_distance,
        OdometryProcessor.setStab_lastDeltaTheta] at ih
      exact ih

/-- A velocity query on a state with zero frame distance and zero recorded
heading change yields zero in both components, whatever the time delta. -/
theorem getVelocity_of_zero (s : OdometryProcessor)
    (h1 : s.distance.frameDistance = 0) (h2 : s.lastDeltaTheta = 0) :
    s.getVelocity.linearX = 0 ∧ s.getVelocity.angularZ = 0 := by
  unfold OdometryProcessor.getVelocity
  split_ifs with h
  · exact ⟨rfl, rfl⟩
  · constructor
    · simp [h1]
    · simp [h2]

/-- Running an appended interaction list runs the two halves in order. -/
theorem runOps_append : ∀ (l1 l2 : List Op) (s : OdometryProcessor),
    runOps s (l1 ++ l2) = runOps (runOps s l1) l2
  | [], _, _ => rfl
  | _ :: rest, l2, s => by
      rw [List.cons_append, runOps, runOps]
      exact runOps_append rest l2 _

namespace OdometryProcessor

theorem metersStage_wheelBase (s : OdometryProcessor) (m : Motor) :
    (s.calculateMetersMotorTraveledInFrame m).wheelBase = s.wheelBase := rfl

theorem calculateFrameDistance_wheelBase (s : OdometryProcessor) :
    s.calculateFrameDistance.wheelBase = s.wheelBase := rfl

end OdometryProcessor

/-- Inside the domain, `asinf` is the real arcsine. -/
theorem asinF_of_mem (x : ℝ) (h1 : -1 ≤ x) (h2 : x ≤ 1) :
    asinF x = some (Real.arcsin x) := by
  unfold asinF
  rw [if_neg]
  simp only [not_or, not_lt]
  exact ⟨h1, h2⟩

/-- Outside the domain, `asinf` is NaN. -/
theorem asinF_of_abs_gt (x : ℝ) (h : 1 < |x|) : asinF x = none := by
  unfold asinF
  rw [if_pos]
  rcases lt_abs.mp h with h1 | h1
  · exact Or.inr h1
  · exact Or.inl (by linarith)

/-- The single-step wrap does nothing on values already in `[-PI, PI]`. -/
theorem normalize1_of_mem (t : ℝ) (h1 : -PI ≤ t) (h2 : t ≤ PI) : normalize1 t = t := by
  unfold normalize1
  rw [if_neg (not_lt.mpr h2), if_neg (not_lt.mpr h1)]

/-- Adding a value of at most a quarter turn to a wrapped heading and
wrapping once again stays inside `[-PI, PI]`. -/
theorem normalize1_mem (t a : ℝ) (ht1 : -PI ≤ t) (ht2 : t ≤ PI)
    (ha1 : -(Real.pi / 2) ≤ a) (ha2 : a ≤ Real.pi / 2) :
    -PI ≤ normalize1 (t + a) ∧ normalize1 (t + a) ≤ PI := by
  have hpi : Real.pi < 3.15 := Real.pi_lt_d2
  have hpi0 : 0 < Real.pi := Real.pi_pos
  unfold normalize1 PI at *
  split_ifs with h1 h2 <;> constructor <;> linarith

/-- `calculateTheta` on a defined heading and an in-domain arcsine adds the
angle and wraps once. -/
theorem calculateTheta_theta_some (s : OdometryProcessor) (t0 a : ℝ)
    (hth : s.currentPosition.theta = some t0)
    (ha : asinF ((s.metersTraveledInFrame.get Motor.RIGHT -
      s.metersTraveledInFrame.get Motor.LEFT) / s.wheelBase) = some a) :
    s.calculateTheta.currentPosition.theta = some (normalize1 (t0 + a)) := by
  unfold OdometryProcessor.calculateTheta
  simp only [hth, ha]

/-- `calculateTheta` with a NaN arcsine leaves theta NaN. -/
theorem calculateTheta_theta_of_arg_none (s : OdometryProcessor)
    (ha : asinF ((s.metersTraveledInFrame.get Motor.RIGHT -
      s.metersTraveledInFrame.get Motor.LEFT) / s.wheelBase) = none) :
    s.calculateTheta.currentPosition.theta = none := by
  unfold OdometryProcessor.calculateTheta
  cases hth : s.currentPosition.theta <;> simp only [hth, ha]

/-- `calculateTheta` keeps a NaN theta NaN. -/
theorem calculateTheta_theta_of_theta_none (s : OdometryProcessor)
    (hth : s.currentPosition.theta = none) :
    s.calculateTheta.currentPosition.theta = none := by
  unfold OdometryProcessor.calculateTheta
  simp only [hth]

/-- `calculateDistanceMovedX` on defined operands. -/
theorem moveX_x_some (s : OdometryProcessor) (x0 t0 : ℝ)
    (hx : s.currentPosition.x = some x0) (hth : s.currentPosition.theta = some t0) :
    s.calculateDistanceMovedX.currentPosition.x =
      some (x0 + Real.cos t0 * s.distance.frameDistance) := by
  unfold OdometryProcessor.calculateDistanceMovedX
  simp only [hx, hth]

/-- `calculateDistanceMovedY` on defined operands (the sum lands in `x`). -/
theorem moveY_x_some (s : OdometryProcessor) (x0 t0 : ℝ)
    (hx : s.currentPosition.x = some x0) (hth : s.currentPosition.theta = some t0) :
    s.calculateDistanceMovedY.currentPosition.x =
      some (x0 + Real.sin t0 * s.distance.frameDistance) := by
  unfold OdometryProcessor.calculateDistanceMovedY
  simp only [hx, hth]

/-- A NaN theta poisons `x` in `calculateDistanceMovedX`. -/
theorem moveX_x_of_theta_none (s : OdometryProcessor)
    (hth : s.currentPosition.theta = none) :
    s.calculateDistanceMovedX.currentPosition.x = none := by
  unfold OdometryProcessor.calculateDistanceMovedX
  cases hx : s.currentPosition.x <;> simp only [hx, hth]

/-- A NaN theta poisons `x` in `calculateDistanceMovedY`. -/
theorem moveY_x_of_theta_none (s : OdometryProcessor)
    (hth : s.currentPosition.theta = none) :
    s.calculateDistanceMovedY.currentPosition.x = none := by
  unfold OdometryProcessor.calculateDistanceMovedY
  cases hx : s.currentPosition.x <;> simp only [hx, hth]

/-- The heading the frame-distance stage hands to `calculateTheta` is the
caller's heading. -/
theorem fdStage_theta (s : OdometryProcessor) (o : Option ℝ)
    (hth : s.currentPosition.theta = o) :
    ((metersFrame s).calculateFrameDistance).currentPosition.theta = o := by
  rw [OdometryProcessor.calculateFrameDistance_position]
  unfold metersFrame
  rw [OdometryProcessor.metersStage_position, OdometryProcessor.metersStage_position, hth]

/-- Likewise for `x`. -/
theorem fdStage_x (s : OdometryProcessor) (o : Option ℝ)
    (hx : s.currentPosition.x = o) :
    ((metersFrame s).calculateFrameDistance).currentPosition.x = o := by
  rw [OdometryProcessor.calculateFrameDistance_position]
  unfold metersFrame
  rw [OdometryProcessor.metersStage_position, OdometryProcessor.metersStage_position, hx]

/-- The arcsine fed to `calculateTheta` inside a settled frame is `asinF`
of `frameThetaArg`. -/
theorem fdStage_asin_arg (s : OdometryProcessor) :
    (((metersFrame s).calculateFrameDistance).metersTraveledInFrame.get Motor.RIGHT -
        ((metersFrame s).calculateFrameDistance).metersTraveledInFrame.get Motor.LEFT) /
      ((metersFrame s).calculateFrameDistance).wheelBase = frameThetaArg s := by
  rw [OdometryProcessor.calculateFrameDistance_meters,
    OdometryProcessor.calculateFrameDistance_wheelBase]
  show _ = ((metersFrame s).metersTraveledInFrame.get Motor.RIGHT -
    (metersFrame s).metersTraveledInFrame.get Motor.LEFT) / s.wheelBase
  unfold metersFrame
  rw [OdometryProcessor.metersStage_wheelBase, OdometryProcessor.metersStage_wheelBase]

/-- Heading produced by one settled frame on a defined, in-domain state:
the arcsine of `frameThetaArg` is added and wrapped once. -/
theorem settled_theta_eval (s : OdometryProcessor) (t0 : ℝ)
    (hstab : s.stablizationAmount = 0) (hth : s.currentPosition.theta = some t0)
    (h1 : -1 ≤ frameThetaArg s) (h2 : frameThetaArg s ≤ 1) :
    s.processData.currentPosition.theta =
      some (normalize1 (t0 + Real.arcsin (frameThetaArg s))) := by
  rw [OdometryProcessor.processData_settled_eq s hstab, OdometryProcessor.pipelineStep_theta]
  show ((metersFrame s).calculateFrameDistance).calculateTheta.currentPosition.theta = _
  rw [calculateTheta_theta_some _ t0 (Real.arcsin (frameThetaArg s))
    (fdStage_theta s _ hth) (by rw [fdStage_asin_arg]; exact asinF_of_mem _ h1 h2)]

/-- The frame distance produced by a settled `processData` call. -/
theorem processData_frameDistance (s : OdometryProcessor)
    (hstab : s.stablizationAmount = 0) :
    s.processData.distance.frameDistance =
      ((metersFrame s).calculateFrameDistance).distance.frameDistance := by
  rw [OdometryProcessor.processData_settled_eq s hstab, OdometryProcessor.pipelineStep_distance]
  rfl

/-- Position produced by one settled frame on a defined, in-domain state:
the updated heading's cosine and sine terms are both added to `x`, and `y`
is untouched. -/
theorem settled_x_eval (s : OdometryProcessor) (t0 x0 : ℝ)
    (hstab : s.stablizationAmount = 0) (hth : s.currentPosition.theta = some t0)
    (hx : s.currentPosition.x = some x0)
    (h1 : -1 ≤ frameThetaArg s) (h2 : frameThetaArg s ≤ 1) :
    s.processData.currentPosition.x =
      some (x0 +
        Real.cos (normalize1 (t0 + Real.arcsin (frameThetaArg s))) *
          ((metersFrame s).calculateFrameDistance).distance.frameDistance +
        Real.sin (normalize1 (t0 + Real.arcsin (frameThetaArg s))) *
          ((metersFrame s).calculateFrameDistance).distance.frameDistance) := by
  rw [OdometryProcessor.processData_settled_eq s hstab]
  show (((((metersFrame s).calculateFrameDistance).calculateTheta).recordDeltaTheta
    |>.calculateDistanceMovedX).calculateDistanceMovedY).currentPosition.x = _
  have hth4 : (((metersFrame s).calculateFrameDistance).calculateTheta).currentPosition.theta =
      some (normalize1 (t0 + Real.arcsin (frameThetaArg s))) :=
    calculateTheta_theta_some _ t0 (Real.arcsin (frameThetaArg s))
      (fdStage_theta s _ hth) (by rw [fdStage_asin_arg]; exact asinF_of_mem _ h1 h2)
  have hx4 : (((metersFrame s).calculateFrameDistance).calculateTheta).currentPosition.x =
      some x0 := by
    rw [OdometryProcessor.calculateTheta_x]
    exact fdStage_x s _ hx
  have hth5 : ((((metersFrame s).calculateFrameDistance).calculateTheta).recordDeltaTheta
      ).currentPosition.theta = some (normalize1 (t0 + Real.arcsin (frameThetaArg s))) := by
    rw [OdometryProcessor.recordDeltaTheta_position]
    exact hth4
  have hx5 : ((((metersFrame s).calculateFrameDistance).calculateTheta).recordDeltaTheta
      ).currentPosition.x = some x0 := by
    rw [OdometryProcessor.recordDeltaTheta_position]
    exact hx4
  have hd5 : ((((metersFrame s).calculateFrameDistance).calculateTheta).recordDeltaTheta
      ).distance.frameDistance =
      ((metersFrame s).calculateFrameDistance).distance.frameDistance := by
    rw [OdometryProcessor.recordDeltaTheta_distance, OdometryProcessor.calculateTheta_distance]
  have hx6 := moveX_x_some _ x0
    (normalize1 (t0 + Real.arcsin (frameThetaArg s))) hx5 hth5
  rw [hd5] at hx6
  have hth6 : (((((metersFrame s).calculateFrameDistance).calculateTheta).recordDeltaTheta
      ).calculateDistanceMovedX).currentPosition.theta =
      some (normalize1 (t0 + Real.arcsin (frameThetaArg s))) := by
    rw [OdometryProcessor.moveX_theta]
    exact hth5
  have hx7 := moveY_x_some _
    (x0 + Real.cos (normalize1 (t0 + Real.arcsin (frameThetaArg s))) *
      ((metersFrame s).calculateFrameDistance).distance.frameDistance)
    (normalize1 (t0 + Real.arcsin (frameThetaArg s))) hx6 hth6
  rw [OdometryProcessor.moveX_distance, OdometryProcessor.recordDeltaTheta_distance,
    OdometryProcessor.calculateTheta_distance] at hx7
  exact hx7

/-- `processData` never writes `y`. -/
theorem processData_y (s : OdometryProcessor) :
    s.processData.currentPosition.y = s.currentPosition.y := by
  by_cases h : 0 < s.stablizationAmount
  · rw [OdometryProcessor.processData_warm_eq s h, OdometryProcessor.setStab_position]
  · rw [OdometryProcessor.processData_settled_eq s (by omega),
      OdometryProcessor.pipelineStep_y]

/-- No interaction ever writes `y`. -/
theorem runOps_y : ∀ (ops : List Op) (s : OdometryProcessor),
    (runOps s ops).currentPosition.y = s.currentPosition.y
  | [], _ => rfl
  | Op.update m v :: rest, s => by
      simp only [runOps, applyOp]
      rw [runOps_y rest, OdometryProcessor.updateCurrentValue_position]
  | Op.stamp t :: rest, s => by
      simp only [runOps, applyOp]
      rw [runOps_y rest, OdometryProcessor.updateTimestamp_position]
  | Op.process :: rest, s => by
      simp only [runOps, applyOp]
      rw [runOps_y rest, processData_y]

/-- A NaN theta survives `processData`. -/
theorem processData_theta_none (s : OdometryProcessor)
    (hth : s.currentPosition.theta = none) :
    s.processData.currentPosition.theta = none := by
  by_cases h : 0 < s.stablizationAmount
  · rw [OdometryProcessor.processData_warm_eq s h, OdometryProcessor.setStab_position, hth]
  · rw [OdometryProcessor.processData_settled_eq s (by omega),
      OdometryProcessor.pipelineStep_theta]
    show ((metersFrame s).calculateFrameDistance).calculateTheta.currentPosition.theta = none
    exact calculateTheta_theta_of_theta_none _ (fdStage_theta s _ hth)

/-- With theta NaN, `x` is NaN after `processData` (warm calls keep it,
settled calls repoison it through `cosf`/`sinf`). -/
theorem processData_x_none (s : OdometryProcessor)
    (hth : s.currentPosition.theta = none) (hx : s.currentPosition.x = none) :
    s.processData.currentPosition.x = none := by
  by_cases h : 0 < s.stablizationAmount
  · rw [OdometryProcessor.processData_warm_eq s h, OdometryProcessor.setStab_position, hx]
  · rw [OdometryProcessor.processData_settled_eq s (by omega)]
    show (((((metersFrame s).calculateFrameDistance).calculateTheta).recordDeltaTheta
      |>.calculateDistanceMovedX).calculateDistanceMovedY).currentPosition.x = none
    apply moveY_x_of_theta_none
    rw [OdometryProcessor.moveX_theta, OdometryProcessor.recordDeltaTheta_position]
    exact calculateTheta_theta_of_theta_none _ (fdStage_theta s _ hth)

/-- NaN in theta and x is permanent: no later interaction clears it. -/
theorem runOps_nan : ∀ (ops : List Op) (s : OdometryProcessor),
    s.currentPosition.theta = none → s.currentPosition.x = none →
    (runOps s ops).currentPosition.theta = none ∧ (runOps s ops).currentPosition.x = none
  | [], _, h1, h2 => ⟨h1, h2⟩
  | Op.update m v :: rest, s, h1, h2 => by
      simp only [runOps, applyOp]
      exact runOps_nan rest _
        (by rw [OdometryProcessor.updateCurrentValue_position]; exact h1)
        (by rw [OdometryProcessor.updateCurrentValue_position]; exact h2)
  | Op.stamp t :: rest, s, h1, h2 => by
      simp only [runOps, applyOp]
      exact runOps_nan rest _
        (by rw [OdometryProcessor.updateTimestamp_position]; exact h1)
        (by rw [OdometryProcessor.updateTimestamp_position]; exact h2)
  | Op.process :: rest, s, h1, h2 => by
      simp only [runOps, applyOp]
      exact runOps_nan rest _ (processData_theta_none s h1) (processData_x_none s h1 h2)

/-- A half turn does not trip the upper wrap branch. -/
theorem not_half_pi_gt_PI : ¬(Real.pi / 2 > PI) := by
  unfold PI
  nlinarith [Real.pi_lt_d2]

/-- Nor the lower one. -/
theorem not_half_pi_lt_neg_PI : ¬(Real.pi / 2 < -PI) := by
  unfold PI
  nlinarith [Real.pi_pos]

/-- The three warm-up frames only consume the stabilization countdown. -/
theorem warm_eval : runOps demoProcessor warmups = sWarm := rfl

/-- `runA` is the warm-up, one right-encoder reading, and one settled
frame. -/
theorem runA_eval : runOps demoProcessor runA = sA.processData := rfl

/-- Frame A evaluated: the settled frame of `runA` produces `sAfull`. -/
theorem stateA_eq : sA.processData = sAfull := by
  rw [OdometryProcessor.processData_settled_eq sA rfl]
  unfold OdometryProcessor.pipelineStep
  norm_num [sA, sWarm, demoProcessor, mkProcessor, sAfull,
    OdometryProcessor.calculateMetersMotorTraveledInFrame,
    OdometryProcessor.calculateDegreesTraveledInFrame,
    OdometryProcessor.getTotalDegreesTraveled,
    OdometryProcessor.calculateDeltaDegrees,
    OdometryProcessor.updateCurrentValue,
    OdometryProcessor.calculateFrameDistance,
    OdometryProcessor.calculateTheta,
    OdometryProcessor.recordDeltaTheta,
    OdometryProcessor.calculateDistanceMovedX,
    OdometryProcessor.calculateDistanceMovedY,
    asinF, normalize1,
    MotorMap.get, MotorMap.set, THREE_SIXTY,
    Real.arcsin_one, not_half_pi_gt_PI, not_half_pi_lt_neg_PI,
    Real.cos_pi_div_two, Real.sin_pi_div_two]

/-- The prefix of `runB` reaches `sB`. -/
theorem stateB_pre : runOps demoProcessor runBpre = sB := by
  unfold runBpre
  rw [runOps_append, runA_eval, stateA_eq]
  rfl

/-- Frame B evaluated: the settled frame of `runB` produces `sBfull`. -/
theorem stateB_eq : sB.processData = sBfull := by
  rw [OdometryProcessor.processData_settled_eq sB rfl]
  unfold OdometryProcessor.pipelineStep
  norm_num [sB, sAfull, demoProcessor, mkProcessor, sBfull,
    OdometryProcessor.calculateMetersMotorTraveledInFrame,
    OdometryProcessor.calculateDegreesTraveledInFrame,
    OdometryProcessor.getTotalDegreesTraveled,
    OdometryProcessor.calculateDeltaDegrees,
    OdometryProcessor.updateCurrentValue,
    OdometryProcessor.calculateFrameDistance,
    OdometryProcessor.calculateTheta,
    OdometryProcessor.recordDeltaTheta,
    OdometryProcessor.calculateDistanceMovedX,
    OdometryProcessor.calculateDistanceMovedY,
    asinF, normalize1,
    MotorMap.get, MotorMap.set, THREE_SIXTY,
    Real.arcsin_zero, not_half_pi_gt_PI, not_half_pi_lt_neg_PI,
    Real.cos_pi_div_two, Real.sin_pi_div_two]

/-- `runB` evaluated end to end. -/
theorem runB_eval : runOps demoProcessor runB = sBfull := by
  unfold runB
  rw [runOps_append, stateB_pre]
  exact stateB_eq

/-- The prefix of `runC` reaches `sC`. -/
theorem runC_pre_eval : runOps demoProcessor badPrefix = sC := rfl

/-- Frame C evaluated: the settled frame of `runC` produces `sCfull`, with
theta and x NaN. -/
theorem stateC_eq : sC.processData = sCfull := by
  rw [OdometryProcessor.processData_settled_eq sC rfl]
  unfold OdometryProcessor.pipelineStep
  norm_num [sC, sWarm, demoProcessor, mkProcessor, sCfull,
    OdometryProcessor.calculateMetersMotorTraveledInFrame,
    OdometryProcessor.calculateDegreesTraveledInFrame,
    OdometryProcessor.getTotalDegreesTraveled,
    OdometryProcessor.calculateDeltaDegrees,
    OdometryProcessor.updateCurrentValue,
    OdometryProcessor.calculateFrameDistance,
    OdometryProcessor.calculateTheta,
    OdometryProcessor.recordDeltaTheta,
    OdometryProcessor.calculateDistanceMovedX,
    OdometryProcessor.calculateDistanceMovedY,
    asinF, normalize1,
    MotorMap.get, MotorMap.set, THREE_SIXTY]

/-- `runC` evaluated end to end. -/
theorem runC_eval : runOps demoProcessor runC = sCfull := by
  unfold runC
  rw [runOps_append, runC_pre_eval]
  exact stateC_eq

/-- The all-zero settled state hands `asinf` the argument 0. -/
theorem frameThetaArg_sWarm : frameThetaArg sWarm = 0 := by
  norm_num [frameThetaArg, metersFrame, sWarm, demoProcessor, mkProcessor,
    OdometryProcessor.calculateMetersMotorTraveledInFrame,
    OdometryProcessor.calculateDegreesTraveledInFrame,
    OdometryProcessor.getTotalDegreesTraveled,
    OdometryProcessor.calculateDeltaDegrees,
    MotorMap.get, MotorMap.set, THREE_SIXTY]

/-- The frame of `runA` hands `asinf` the argument 1. -/
theorem frameThetaArg_sA : frameThetaArg sA = 1 := by
  norm_num [frameThetaArg, metersFrame, sA, sWarm, demoProcessor, mkProcessor,
    OdometryProcessor.calculateMetersMotorTraveledInFrame,
    OdometryProcessor.calculateDegreesTraveledInFrame,
    OdometryProcessor.getTotalDegreesTraveled,
    OdometryProcessor.calculateDeltaDegrees,
    OdometryProcessor.updateCurrentValue,
    MotorMap.get, MotorMap.set, THREE_SIXTY]

/-- The frame of `runC` computes wheel meters 0 (left) and 2 (right). -/
theorem metersFrame_sC : (metersFrame sC).metersTraveledInFrame = ⟨0, 2⟩ := by
  norm_num [metersFrame, sC, sWarm, demoProcessor, mkProcessor,
    OdometryProcessor.calculateMetersMotorTraveledInFrame,
    OdometryProcessor.calculateDegreesTraveledInFrame,
    OdometryProcessor.getTotalDegreesTraveled,
    OdometryProcessor.calculateDeltaDegrees,
    OdometryProcessor.updateCurrentValue,
    MotorMap.get, MotorMap.set, THREE_SIXTY]

/-- C1 counterexample: in the settled frame of `runA` the wheel meters are
0 (left) and 1 (right) over a wheel base of 1, so the claimed heading
change is `(1 - 0) / 1 = 1`; the code instead adds `asinf(1) = pi / 2`,
and `pi / 2` is not `0 + 1`. -/
theorem claim_heading_change_counterexample :
    runOps demoProcessor runA = sA.processData ∧
    sA.stablizationAmount = 0 ∧
    sA.currentPosition.theta = some 0 ∧
    frameThetaArg sA = 1 ∧
    sA.processData.currentPosition.theta = some (Real.pi / 2) ∧
    Real.pi / 2 ≠ 0 + 1 := by
  refine ⟨runA_eval, rfl, rfl, frameThetaArg_sA, ?_, ?_⟩
  · rw [stateA_eq]
    rfl
  · have h := Real.pi_gt_three
    intro hc
    rw [zero_add] at hc
    nlinarith

/-- C1 amended: the heading change a settled frame adds to theta (before
the single wrap) is `arcsin((rightMeters - leftMeters) / wheelBase)`, not
the plain quotient, whenever that quotient lies in the arcsine domain. -/
theorem claim_heading_change_amended (s : OdometryProcessor) (t0 : ℝ)
    (hstab : s.stablizationAmount = 0) (hth : s.currentPosition.theta = some t0)
    (h1 : -1 ≤ frameThetaArg s) (h2 : frameThetaArg s ≤ 1) :
    s.processData.currentPosition.theta =
      some (normalize1 (t0 + Real.arcsin (frameThetaArg s))) :=
  settled_theta_eval s t0 hstab hth h1 h2

/-- Witness for the amended C1, at the freshly settled all-zero state. -/
theorem claim_heading_change_amended_witness :
    sWarm.stablizationAmount = 0 ∧ sWarm.currentPosition.theta = some 0 ∧
      -1 ≤ frameThetaArg sWarm ∧ frameThetaArg sWarm ≤ 1 ∧
      sWarm.processData.currentPosition.theta =
        some (normalize1 (0 + Real.arcsin (frameThetaArg sWarm))) :=
  ⟨rfl, rfl, by rw [frameThetaArg_sWarm]; norm_num, by rw [frameThetaArg_sWarm]; norm_num,
    claim_heading_change_amended sWarm 0 rfl rfl (by rw [frameThetaArg_sWarm]; norm_num)
      (by rw [frameThetaArg_sWarm]; norm_num)⟩

/-- C2 counterexample: the settled frame of `runB` has heading change 0
(below the 0.01 threshold), frame distance 1 and new heading `pi / 2`, so
the claimed small-angle update requires `y += 1 * sin(pi / 2) = 1`; the
code leaves `y` at 0 (there is no regime split and `y` is never written). -/
theorem claim_position_regimes_counterexample :
    runOps demoProcessor runBpre = sB ∧
    sB.stablizationAmount = 0 ∧
    sB.currentPosition.theta = some (Real.pi / 2) ∧
    sB.processData.currentPosition.theta = some (Real.pi / 2) ∧
    sB.processData.distance.frameDistance = 1 ∧
    |Real.pi / 2 - Real.pi / 2| < 0.01 ∧
    sB.currentPosition.y = 0 ∧
    sB.processData.currentPosition.y = 0 ∧
    sB.currentPosition.y + sB.processData.distance.frameDistance *
        Real.sin (Real.pi / 2 - (Real.pi / 2 - Real.pi / 2) / 2) = 1 ∧
    (0 : ℝ) ≠ 1 := by
  refine ⟨stateB_pre, rfl, rfl, ?_, ?_, by norm_num, rfl, ?_, ?_, by norm_num⟩
  · rw [stateB_eq]
    rfl
  · rw [stateB_eq]
    rfl
  · rw [stateB_eq]
    rfl
  · rw [stateB_eq,
      show Real.pi / 2 - (Real.pi / 2 - Real.pi / 2) / 2 = Real.pi / 2 by ring,
      Real.sin_pi_div_two]
    show (0 : ℝ) + 1 * 1 = 1
    norm_num

/-- C2 amended: a settled frame (with defined, in-domain operands) has no
regime split at all: it adds the frame distance times the cosine of the new
heading and then times the sine of the new heading both to `x`, and leaves
`y` unchanged. -/
theorem claim_position_update_amended (s : OdometryProcessor) (t0 x0 : ℝ)
    (hstab : s.stablizationAmount = 0) (hth : s.currentPosition.theta = some t0)
    (hx : s.currentPosition.x = some x0)
    (h1 : -1 ≤ frameThetaArg s) (h2 : frameThetaArg s ≤ 1) :
    ∃ t1 : ℝ, s.processData.currentPosition.theta = some t1 ∧
      s.processData.currentPosition.x =
        some (x0 + s.processData.distance.frameDistance * Real.cos t1 +
          s.processData.distance.frameDistance * Real.sin t1) ∧
      s.processData.currentPosition.y = s.currentPosition.y := by
  refine ⟨normalize1 (t0 + Real.arcsin (frameThetaArg s)),
    settled_theta_eval s t0 hstab hth h1 h2, ?_, processData_y s⟩
  rw [settled_x_eval s t0 x0 hstab hth hx h1 h2, processData_frameDistance s hstab]
  simp only [Option.some.injEq]
  ring

/-- Witness for the amended C2, at the freshly settled all-zero state. -/
theorem claim_position_update_amended_witness :
    sWarm.stablizationAmount = 0 ∧ sWarm.currentPosition.theta = some 0 ∧
      sWarm.currentPosition.x = some 0 ∧
      -1 ≤ frameThetaArg sWarm ∧ frameThetaArg sWarm ≤ 1 ∧
      ∃ t1 : ℝ, sWarm.processData.currentPosition.theta = some t1 ∧
        sWarm.processData.currentPosition.x =
          some (0 + sWarm.processData.distance.frameDistance * Real.cos t1 +
            sWarm.processData.distance.frameDistance * Real.sin t1) ∧
        sWarm.processData.currentPosition.y = sWarm.currentPosition.y :=
  ⟨rfl, rfl, rfl, by rw [frameThetaArg_sWarm]; norm_num, by rw [frameThetaArg_sWarm]; norm_num,
    claim_position_update_amended sWarm 0 0 rfl rfl rfl
      (by rw [frameThetaArg_sWarm]; norm_num) (by rw [frameThetaArg_sWarm]; norm_num)⟩

/-- C3: the failing frame of `runB`: the right motor's frame delta is 0
degrees, so the claimed (and spec-intended) per-frame meters are 0; the
code stores 1 m in `metersTraveledInFrame` (it converts the cumulative
total of 1 degree) and accumulates `totalMetersTraveled` to 2 m. -/
theorem claim_frame_meters_failing :
    sB.calculateDeltaDegrees (sB.currentReadings.get Motor.RIGHT)
        (sB.lastReadings.get Motor.RIGHT) = 0 ∧
    (0 : ℝ) / 360 / sB.gearRatio * sB.wheelCircumference = 0 ∧
    sB.processData.metersTraveledInFrame.get Motor.RIGHT = 1 ∧
    sB.processData.totalMetersTraveled.get Motor.RIGHT = 2 ∧
    (1 : ℝ) ≠ 0 := by
  refine ⟨?_, by norm_num, ?_, ?_, by norm_num⟩
  · norm_num [sB, sAfull, demoProcessor, mkProcessor,
      OdometryProcessor.updateCurrentValue, OdometryProcessor.calculateDeltaDegrees,
      MotorMap.get, MotorMap.set]
  · rw [stateB_eq]
    rfl
  · rw [stateB_eq]
    rfl

/-- C4: the first three `processData` calls only consume the stabilization
countdown: whatever readings and timestamps arrive, position, distance and
velocity stay at zero, and a warm call changes nothing but the countdown;
from the fourth call on the countdown is zero and `processData` is exactly
the full pipeline. -/
theorem claim_stabilization_gate :
    (∀ (wc wb gr rt : ℝ) (ri li : Bool) (ops : List Op),
        countProcess ops ≤ 3 →
        (runOps (mkProcessor wc wb gr rt ri li) ops).currentPosition =
            ⟨some 0, 0, some 0⟩ ∧
          (runOps (mkProcessor wc wb gr rt ri li) ops).distance = ⟨0, 0⟩ ∧
          (runOps (mkProcessor wc wb gr rt ri li) ops).getVelocity.linearX = 0 ∧
          (runOps (mkProcessor wc wb gr rt ri li) ops).getVelocity.angularZ = 0) ∧
    (∀ (wc wb gr rt : ℝ) (ri li : Bool) (ops : List Op),
        3 ≤ countProcess ops →
        (runOps (mkProcessor wc wb gr rt ri li) ops).stablizationAmount = 0) ∧
    (∀ s : OdometryProcessor, s.stablizationAmount = 0 → s.processData = s.pipelineStep) ∧
    (∀ s : OdometryProcessor, 0 < s.stablizationAmount →
        s.processData = { s with stablizationAmount := s.stablizationAmount - 1 }) := by
  refine ⟨?_, ?_, OdometryProcessor.processData_settled_eq,
    OdometryProcessor.processData_warm_eq⟩
  · intro wc wb gr rt ri li ops h
    obtain ⟨hp, hd, hl⟩ := runOps_frozen ops (mkProcessor wc wb gr rt ri li) h
    have hv := getVelocity_of_zero (runOps (mkProcessor wc wb gr rt ri li) ops)
      (by rw [hd]; rfl) (by rw [hl]; rfl)
    exact ⟨by rw [hp]; rfl, by rw [hd]; rfl, hv.1, hv.2⟩
  · intro wc wb gr rt ri li ops h
    rw [runOps_stab]
    show 3 - countProcess ops = 0
    omega

/-- Witness for C4: three bare `processData` calls from construction. -/
theorem claim_stabilization_gate_witness :
    countProcess warmups ≤ 3 ∧
      ((runOps (mkProcessor 360 1 1 100 true true) warmups).currentPosition =
          ⟨some 0, 0, some 0⟩ ∧
        (runOps (mkProcessor 360 1 1 100 true true) warmups).distance = ⟨0, 0⟩ ∧
        (runOps (mkProcessor 360 1 1 100 true true) warmups).getVelocity.linearX = 0 ∧
        (runOps (mkProcessor 360 1 1 100 true true) warmups).getVelocity.angularZ = 0) ∧
      3 ≤ countProcess warmups ∧
      (runOps (mkProcessor 360 1 1 100 true true) warmups).stablizationAmount = 0 ∧
      0 < demoProcessor.stablizationAmount ∧
      demoProcessor.processData =
        { demoProcessor with stablizationAmount := demoProcessor.stablizationAmount - 1 } := by
  have hc : countProcess warmups ≤ 3 := by norm_num [warmups, countProcess]
  have hc2 : 3 ≤ countProcess warmups := by norm_num [warmups, countProcess]
  exact ⟨hc, claim_stabilization_gate.1 360 1 1 100 true true warmups hc,
    hc2, claim_stabilization_gate.2.1 360 1 1 100 true true warmups hc2,
    Nat.succ_pos 2,
    claim_stabilization_gate.2.2.2 demoProcessor (Nat.succ_pos 2)⟩

/-- C6 counterexample: after `runC` (a settled frame whose wheel-distance
difference of 2 m exceeds the 1 m wheel base) theta is NaN, hence not a
real number in `(-pi, pi]`. -/
theorem claim_theta_range_counterexample :
    runOps demoProcessor runC = sCfull ∧
    sCfull.currentPosition.theta = none ∧
    ¬∃ t : ℝ, (runOps demoProcessor runC).currentPosition.theta = some t ∧
        -Real.pi < t ∧ t ≤ Real.pi := by
  refine ⟨runC_eval, rfl, ?_⟩
  rintro ⟨t, ht, _, _⟩
  rw [runC_eval] at ht
  have h2 : (none : Option ℝ) = some t := ht
  exact Option.noConfusion h2

/-- C6 amended: provided every settled frame feeds `asinf` an argument in
`[-1, 1]`, theta stays a real number in `[-PI, PI]` (PI the float macro
3.14159265) through construction and every operation, and that interval is
contained in the claimed `(-pi, pi]`. -/
theorem claim_theta_range_amended :
    (∀ (wc wb gr rt : ℝ) (ri li : Bool), ThetaInRange (mkProcessor wc wb gr rt ri li)) ∧
    (∀ (s : OdometryProcessor) (v : ℝ) (m : Motor),
        ThetaInRange s → ThetaInRange (s.updateCurrentValue v m)) ∧
    (∀ (s : OdometryProcessor) (t : Int),
        ThetaInRange s → ThetaInRange (s.updateTimestamp t)) ∧
    (∀ s : OdometryProcessor, ThetaInRange s →
        -1 ≤ frameThetaArg s → frameThetaArg s ≤ 1 → ThetaInRange s.processData) ∧
    (∀ t : ℝ, -PI ≤ t → t ≤ PI → -Real.pi < t ∧ t ≤ Real.pi) := by
  have hPIpi : PI < Real.pi := by
    unfold PI
    linarith [Real.pi_gt_d20]
  refine ⟨?_, ?_, ?_, ?_, ?_⟩
  · intro wc wb gr rt ri li
    exact ⟨0, rfl, by unfold PI; norm_num, by unfold PI; norm_num⟩
  · intro s v m h
    obtain ⟨t, ht, h1, h2⟩ := h
    exact ⟨t, by rw [OdometryProcessor.updateCurrentValue_position]; exact ht, h1, h2⟩
  · intro s tt h
    obtain ⟨t, ht, h1, h2⟩ := h
    exact ⟨t, by rw [OdometryProcessor.updateTimestamp_position]; exact ht, h1, h2⟩
  · intro s h ha1 ha2
    obtain ⟨t, ht, h1, h2⟩ := h
    by_cases hw : 0 < s.stablizationAmount
    · refine ⟨t, ?_, h1, h2⟩
      rw [OdometryProcessor.processData_warm_eq s hw, OdometryProcessor.setStab_position]
      exact ht
    · have hmem := normalize1_mem t (Real.arcsin (frameThetaArg s)) h1 h2
        (Real.neg_pi_div_two_le_arcsin _) (Real.arcsin_le_pi_div_two _)
      exact ⟨normalize1 (t + Real.arcsin (frameThetaArg s)),
        settled_theta_eval s t (by omega) ht ha1 ha2, hmem.1, hmem.2⟩
  · intro t h1 h2
    constructor <;> linarith

/-- Witness for the amended C6, at the freshly settled all-zero state. -/
theorem claim_theta_range_amended_witness :
    ThetaInRange sWarm ∧ -1 ≤ frameThetaArg sWarm ∧ frameThetaArg sWarm ≤ 1 ∧
      ThetaInRange sWarm.processData := by
  have h0 : ThetaInRange sWarm := ⟨0, rfl, by unfold PI; norm_num, by unfold PI; norm_num⟩
  have ha1 : -1 ≤ frameThetaArg sWarm := by rw [frameThetaArg_sWarm]; norm_num
  have ha2 : frameThetaArg sWarm ≤ 1 := by rw [frameThetaArg_sWarm]; norm_num
  exact ⟨h0, ha1, ha2, claim_theta_range_amended.2.2.2.1 sWarm h0 ha1 ha2⟩

/-- C9: `y` stays 0 through every sequence of operations from
construction, and a settled frame (with defined, in-domain operands)
changes `x` by the frame distance times the sum of the cosine and the sine
of the updated heading, because `calculateDistanceMovedY` writes its sine
displacement into `x`. -/
theorem claim_y_constant :
    (∀ (wc wb gr rt : ℝ) (ri li : Bool) (ops : List Op),
        (runOps (mkProcessor wc wb gr rt ri li) ops).currentPosition.y = 0) ∧
    (∀ (s : OdometryProcessor) (t0 x0 : ℝ),
        s.stablizationAmount = 0 → s.currentPosition.theta = some t0 →
        s.currentPosition.x = some x0 →
        -1 ≤ frameThetaArg s → frameThetaArg s ≤ 1 →
        ∃ t1 : ℝ, s.processData.currentPosition.theta = some t1 ∧
          s.processData.currentPosition.x =
            some (x0 + s.processData.distance.frameDistance *
              (Real.cos t1 + Real.sin t1))) := by
  constructor
  · intro wc wb gr rt ri li ops
    rw [runOps_y]
    rfl
  · intro s t0 x0 hstab hth hx h1 h2
    refine ⟨normalize1 (t0 + Real.arcsin (frameThetaArg s)),
      settled_theta_eval s t0 hstab hth h1 h2, ?_⟩
    rw [settled_x_eval s t0 x0 hstab hth hx h1 h2, processData_frameDistance s hstab]
    simp only [Option.some.injEq]
    ring

/-- Witness for C9: the `runA` interaction list, and the all-zero settled
state for the x-mechanism part. -/
theorem claim_y_constant_witness :
    (runOps (mkProcessor 360 1 1 100 true true) runA).currentPosition.y = 0 ∧
      sWarm.stablizationAmount = 0 ∧ sWarm.currentPosition.theta = some 0 ∧
      sWarm.currentPosition.x = some 0 ∧
      -1 ≤ frameThetaArg sWarm ∧ frameThetaArg sWarm ≤ 1 ∧
      ∃ t1 : ℝ, sWarm.processData.currentPosition.theta = some t1 ∧
        sWarm.processData.currentPosition.x =
          some (0 + sWarm.processData.distance.frameDistance *
            (Real.cos t1 + Real.sin t1)) :=
  ⟨claim_y_constant.1 360 1 1 100 true true runA, rfl, rfl, rfl,
    by rw [frameThetaArg_sWarm]; norm_num, by rw [frameThetaArg_sWarm]; norm_num,
    claim_y_constant.2 sWarm 0 0 rfl rfl rfl
      (by rw [frameThetaArg_sWarm]; norm_num) (by rw [frameThetaArg_sWarm]; norm_num)⟩

/-- C10: a settled frame whose wheel-distance difference exceeds the (positive)
wheel base feeds `asinf` an argument of magnitude above 1; the angle is NaN,
theta and `x` are NaN after the frame, and they stay NaN under every further
sequence of operations. -/
theorem claim_asin_no_guard (s : OdometryProcessor)
    (hstab : s.stablizationAmount = 0) (hwb : 0 < s.wheelBase)
    (hdiff : s.wheelBase < |(metersFrame s).metersTraveledInFrame.get Motor.RIGHT -
        (metersFrame s).metersTraveledInFrame.get Motor.LEFT|) :
    1 < |frameThetaArg s| ∧
    s.processData.currentPosition.theta = none ∧
    s.processData.currentPosition.x = none ∧
    ∀ ops : List Op, (runOps s.processData ops).currentPosition.theta = none ∧
      (runOps s.processData ops).currentPosition.x = none := by
  have harg : 1 < |frameThetaArg s| := by
    unfold frameThetaArg
    rw [abs_div, abs_of_pos hwb]
    exact (one_lt_div hwb).mpr hdiff
  have hthn : s.processData.currentPosition.theta = none := by
    rw [OdometryProcessor.processData_settled_eq s hstab, OdometryProcessor.pipelineStep_theta]
    show ((metersFrame s).calculateFrameDistance).calculateTheta.currentPosition.theta = none
    apply calculateTheta_theta_of_arg_none
    rw [fdStage_asin_arg]
    exact asinF_of_abs_gt _ harg
  have hxn : s.processData.currentPosition.x = none := by
    rw [OdometryProcessor.processData_settled_eq s hstab]
    show (((((metersFrame s).calculateFrameDistance).calculateTheta).recordDeltaTheta
      |>.calculateDistanceMovedX).calculateDistanceMovedY).currentPosition.x = none
    apply moveY_x_of_theta_none
    rw [OdometryProcessor.moveX_theta, OdometryProcessor.recordDeltaTheta_position]
    apply calculateTheta_theta_of_arg_none
    rw [fdStage_asin_arg]
    exact asinF_of_abs_gt _ harg
  exact ⟨harg, hthn, hxn, fun ops => runOps_nan ops s.processData hthn hxn⟩

/-- Witness for C10: the frame of `runC` (wheel meters 0 and 2, wheel base
1). -/
theorem claim_asin_no_guard_witness :
    sC.stablizationAmount = 0 ∧ 0 < sC.wheelBase ∧
      sC.wheelBase < |(metersFrame sC).metersTraveledInFrame.get Motor.RIGHT -
        (metersFrame sC).metersTraveledInFrame.get Motor.LEFT| ∧
      (1 < |frameThetaArg sC| ∧
        sC.processData.currentPosition.theta = none ∧
        sC.processData.currentPosition.x = none ∧
        ∀ ops : List Op, (runOps sC.processData ops).currentPosition.theta = none ∧
          (runOps sC.processData ops).currentPosition.x = none) := by
  have hwb : (0 : ℝ) < sC.wheelBase := by
    show (0 : ℝ) < 1
    norm_num
  have hd : sC.wheelBase < |(metersFrame sC).metersTraveledInFrame.get Motor.RIGHT -
      (metersFrame sC).metersTraveledInFrame.get Motor.LEFT| := by
    rw [metersFrame_sC]
    show (1 : ℝ) < |(2 : ℝ) - 0|
    norm_num
  exact ⟨rfl, hwb, hd, claim_asin_no_guard sC rfl hwb hd⟩

/-- C5: the per-frame angle delta equals `raw - 360` above the rollover
threshold, `raw + 360` below its negation, and `raw` in between. -/
theorem claim_delta_degrees (s : OdometryProcessor) (current last : ℝ)
    (_h0 : 0 < s.rolloverThreshold) (_h1 : s.rolloverThreshold < 180) :
    s.calculateDeltaDegrees current last =
      if current - last > s.rolloverThreshold then current - last - 360
      else if current - last < -s.rolloverThreshold then current - last + 360
      else current - last := by
  show (if current - last > s.rolloverThreshold then 0 - (360 - (current - last))
      else if current - last < -s.rolloverThreshold then 360 + (current - last)
      else current - last) = _
  by_cases hgt : current - last > s.rolloverThreshold
  · rw [if_pos hgt, if_pos hgt]
    ring
  · rw [if_neg hgt, if_neg hgt]
    by_cases hlt : current - last < -s.rolloverThreshold
    · rw [if_pos hlt, if_pos hlt]
      ring
    · rw [if_neg hlt, if_neg hlt]

/-- Witness for C5: with threshold 100, previous 300 and current 10 give
delta 70, and previous 10 and current 300 give delta -70. -/
theorem claim_delta_degrees_witness :
    (0 : ℝ) < 100 ∧ (100 : ℝ) < 180 ∧
      demoProcessor.calculateDeltaDegrees 10 300 = 70 ∧
      demoProcessor.calculateDeltaDegrees 300 10 = -70 := by
  have hth : demoProcessor.rolloverThreshold = 100 := rfl
  refine ⟨by norm_num, by norm_num, ?_, ?_⟩
  · rw [claim_delta_degrees demoProcessor 10 300 (by rw [hth]; norm_num)
      (by rw [hth]; norm_num), hth]
    norm_num
  · rw [claim_delta_degrees demoProcessor 300 10 (by rw [hth]; norm_num)
      (by rw [hth]; norm_num), hth]
    norm_num

/-- C7: whenever the elapsed time delta is not positive, `getVelocity`
returns zero linear and angular components, regardless of the stored frame
distance and heading change. -/
theorem claim_velocity_zero_guard (s : OdometryProcessor) (h : s.deltaTime ≤ 0) :
    s.getVelocity.linearX = 0 ∧ s.getVelocity.angularZ = 0 := by
  unfold OdometryProcessor.getVelocity
  rw [if_pos h]
  exact ⟨rfl, rfl⟩

/-- Witness for C7: the freshly constructed processor has `deltaTime = 0`. -/
theorem claim_velocity_zero_guard_witness :
    demoProcessor.deltaTime ≤ 0 ∧
      demoProcessor.getVelocity.linearX = 0 ∧ demoProcessor.getVelocity.angularZ = 0 :=
  ⟨le_refl 0, claim_velocity_zero_guard demoProcessor (le_refl 0)⟩

/-- C8: a settled `processData` call sets `frameDistance` to the average of
the two wheels' per-frame meters of that same frame and grows
`totalDistance` by exactly that amount. -/
theorem claim_frame_distance (s : OdometryProcessor) (h : s.stablizationAmount = 0) :
    s.processData.distance.frameDistance =
      (s.processData.metersTraveledInFrame.get Motor.LEFT +
        s.processData.metersTraveledInFrame.get Motor.RIGHT) / 2 ∧
    s.processData.distance.totalDistance =
      s.distance.totalDistance + s.processData.distance.frameDistance := by
  rw [OdometryProcessor.processData_settled_eq s h]
  rw [OdometryProcessor.pipelineStep_distance, OdometryProcessor.pipelineStep_meters]
  rw [OdometryProcessor.calculateFrameDistance_frameDistance,
    OdometryProcessor.calculateFrameDistance_totalDistance]
  rw [OdometryProcessor.metersStage_distance, OdometryProcessor.metersStage_distance]
  exact ⟨by ring, rfl⟩

/-- Witness for C8: the processor after its three warm-up frames is
settled, and the next frame satisfies the frame-distance equations. -/
theorem claim_frame_distance_witness :
    (runOps demoProcessor warmups).stablizationAmount = 0 ∧
      ((runOps demoProcessor warmups).processData.distance.frameDistance =
        ((runOps demoProcessor warmups).processData.metersTraveledInFrame.get Motor.LEFT +
          (runOps demoProcessor warmups).processData.metersTraveledInFrame.get Motor.RIGHT) / 2 ∧
      (runOps demoProcessor warmups).processData.distance.totalDistance =
        (runOps demoProcessor warmups).distance.totalDistance +
          (runOps demoProcessor warmups).processData.distance.frameDistance) :=
  ⟨rfl, claim_frame_distance (runOps demoProcessor warmups) rfl⟩

end

end EncoderToOdom
